import Mathlib

/-!
Verification development for the Yandex SpeechKit plugin tools
(speech-to-text: audio acquisition, WAV parsing / PCM extraction,
normalization decision, recognition dispatch; text-to-speech: parameter
validation and response handling).

The definitions below are a shallow embedding of the Python source:

* `tools/speech_to_text.py`:
  `_get_audio_data_from_file`  -> `getAudioDataFromFile` (with the managed
  object branch `getAudioDataFromManaged` and the metadata-dict branch
  `getAudioDataFromDict`), `_convert_wav_to_pcm` -> `convertWavToPcm`
  (with the `audioop` primitives `rmsInt`, `tomono`, `mulSample` modelled
  from CPython's `audioop.c`), the two-attempt normalization decision of
  `_invoke` -> `invokeNormalize`, and the response dispatch of `_invoke`
  -> `sttHandleResponse`.
* `tools/text_to_speech.py`:
  `_validate_parameters` -> `validateParameters` and the `_invoke`
  request/response logic -> `ttsInvoke`.

External effects (HTTP requests, SDK file lookups, the pydub/ffmpeg
transcoder, the filesystem) are passed in as oracle functions, so every
definition is executable; `Option` models a strategy that either yields a
value or raises an exception that the source catches.

Machine integers: 16-bit PCM samples are modelled as `Int` with the
explicit clamping performed by CPython's `fbound` (audioop.c); the float
factors 4.0 / 2.0 / 0.5 used by the source are exact powers of two, so
products and averages of 16-bit samples are computed exactly by the C
double arithmetic and are modelled as exact `Int` arithmetic.
-/

/-- Byte strings are modelled as lists of bytes. -/
abbrev Bytes := List UInt8

/-! ## Python-string helpers (kernel-computable, over `String.data`) -/

/-- Prefix test on character lists (`str.startswith`). -/
def listIsPrefix : List Char → List Char → Bool
  | [], _ => true
  | _ :: _, [] => false
  | p :: ps, c :: cs => if p = c then listIsPrefix ps cs else false

/-- Models Python `str.startswith(pre)`. -/
def pyStartsWith (s pre : String) : Bool :=
  listIsPrefix pre.data s.data

/-- Models Python `str.lower()` (ASCII case folding, as used on URLs). -/
def pyLower (s : String) : String :=
  ⟨s.data.map Char.toLower⟩

/-- Models Python `str.lstrip()`. -/
def pyLstrip (s : String) : String :=
  ⟨s.data.dropWhile Char.isWhitespace⟩

/-- Models Python `str.strip()`. -/
def pyStrip (s : String) : String :=
  ⟨((s.data.dropWhile Char.isWhitespace).reverse.dropWhile Char.isWhitespace).reverse⟩

/-- Lexicographic order on code points, as Python `sorted` uses on `str`. -/
def charListLe : List Char → List Char → Bool
  | [], _ => true
  | _ :: _, [] => false
  | a :: as, b :: bs => if a < b then true else if b < a then false else charListLe as bs

/-- String order used to model Python `sorted`. -/
def strLe (a b : String) : Bool :=
  charListLe a.data b.data

/-- Insert into a sorted list of strings. -/
def insertSorted (s : String) : List String → List String
  | [] => [s]
  | x :: xs => if strLe s x then s :: x :: xs else x :: insertSorted s xs

/-- Models Python `sorted` on a collection of strings (insertion sort). -/
def sortStrings : List String → List String
  | [] => []
  | x :: xs => insertSorted x (sortStrings xs)

/-- Models Python `sep.join(xs)`. -/
def joinWith (sep : String) : List String → String
  | [] => ""
  | [x] => x
  | x :: y :: xs => x ++ sep ++ joinWith sep (y :: xs)

/-- Models Python truthiness of an optional string (`None` and `""` are falsy):
returns the value only when it is present and non-empty. -/
def truthyStr : Option String → Option String
  | some s => if s = "" then none else some s
  | none => none

/-- Models Python `a or b` on two optional strings (`None`/`""` falsy). -/
def pyOrStr : Option String → Option String → Option String
  | some s, b => if s = "" then b else some s
  | none, b => b

/-! ## Integer square root (models C `(unsigned long)sqrt(...)`)

CPython's `audioop.rms` returns `(unsigned long)sqrt(sum_squares/len)`,
i.e. the floor of the real square root of the (real) quotient.  Since
`floor (sqrt x) = floor (sqrt (floor x))` for nonnegative `x`, this equals
the integer square root of the Nat quotient.  `isqrt` below is a
fuel-based structural search so that the kernel can evaluate it. -/

/-- Linear search for the integer square root: starting at candidate `k`
(with `k * k ≤ n`), increase while the next square still fits. -/
def isqrtAux (n : Nat) : Nat → Nat → Nat
  | 0, k => k
  | fuel + 1, k => if (k + 1) * (k + 1) ≤ n then isqrtAux n fuel (k + 1) else k

/-- Integer square root: the largest `k` with `k * k ≤ n`. -/
def isqrt (n : Nat) : Nat :=
  isqrtAux n n 0

/-! ## audioop primitives (modelled from CPython `Modules/audioop.c`) -/

/-- CPython `audioop.rms(fragment, 2)`: `(int)sqrt(sum_of_squares / n)`
over the 16-bit samples (0 for an empty fragment). -/
def rmsInt (xs : List Int) : Nat :=
  if xs.length = 0 then 0
  else isqrt ((xs.map fun s => (s * s).toNat).sum / xs.length)

/-- CPython `audioop.mul(fragment, 2, factor)` on one sample: the product
is computed exactly (factors 4.0 and 2.0 are exact), then clamped by
`fbound` to `[-32768, 32767]` (values below `minval + 1` saturate to
`minval`, values above `maxval` saturate to `maxval`). -/
def mulSample (g s : Int) : Int :=
  if s * g > 32767 then 32767
  else if s * g < -32767 then -32768
  else s * g

/-- CPython `audioop.tomono(fragment, 2, 0.5, 0.5)` on one stereo frame:
`0.5*l + 0.5*r` computed exactly as `(l + r) / 2`, `fbound`-clamped and
floored (C `floor` of the exact half-integer). -/
def tomonoSample (l r : Int) : Int :=
  if l + r > 65534 then 32767
  else if l + r < -65534 then -32768
  else Int.fdiv (l + r) 2

/-- CPython `audioop.tomono` over the interleaved stereo sample list. -/
def tomono : List Int → List Int
  | l :: r :: rest => tomonoSample l r :: tomono rest
  | _ => []

/-! ## WAV parsing and PCM extraction (`_convert_wav_to_pcm`) -/

/-- A parsed WAV container as the `wave` module exposes it: sample rate
(`getframerate`), sample width in bytes (`getsampwidth`), channel count
(`getnchannels`) and the interleaved samples returned by `readframes`
(one `Int` per width-sized sample; `samples.length = channels * nframes`
for a well-formed container). -/
structure WavFile where
  rate : Nat
  width : Nat
  channels : Nat
  samples : List Int
deriving DecidableEq

/-- Input bytes as seen by `wave.open`: either a parseable WAV container
or foreign bytes (any other container/codec), on which `wave.open`
raises.  This inductive is the byte-level domain of the normalization
decision. -/
inductive AudioBytes where
  | wav (w : WavFile)
  | foreign (tag : String)
deriving DecidableEq

/-- The gain factor chosen by `_convert_wav_to_pcm`:
`gain = 1.0; if rms and rms < 300: gain = 4.0; elif rms and rms < 1000:
gain = 2.0` (Python truthiness: `rms` is falsy when 0). -/
def gainFor (rms : Nat) : Int :=
  if rms ≠ 0 ∧ rms < 300 then 4
  else if rms ≠ 0 ∧ rms < 1000 then 2
  else 1

/-- The loudness-normalization step of `_convert_wav_to_pcm`: compute the
RMS of the mono signal, pick the gain, and apply `audioop.mul` only when
the gain is not 1.0. -/
def applyGainNorm (samples : List Int) : List Int :=
  if gainFor (rmsInt samples) ≠ 1 then
    samples.map (mulSample (gainFor (rmsInt samples)))
  else samples

/-- The sample-width rejection message of `_convert_wav_to_pcm`, as
re-wrapped by its `except` clause. -/
def widthErrMsg (width : Nat) : String :=
  "Failed to process WAV file: Unsupported WAV sample width: "
    ++ toString (width * 8) ++ " bits. Only 16-bit PCM supported"

/-- The error produced when `wave.open` itself rejects the bytes, as
re-wrapped by the `except` clause of `_convert_wav_to_pcm`. -/
def notWavErrMsg (tag : String) : String :=
  "Failed to process WAV file: " ++ tag

/-- `_convert_wav_to_pcm`: open the container, reject non-16-bit widths
before reading frames, read the frames, downmix to mono when
`channels > 1`, apply the RMS gain heuristic, and return the PCM samples
together with the container's own sample rate (no resampling). -/
def convertWavToPcm : AudioBytes → Except String (List Int × Nat)
  | .foreign tag => .error (notWavErrMsg tag)
  | .wav w =>
    if w.width ≠ 2 then .error (widthErrMsg w.width)
    else
      .ok (applyGainNorm (if w.channels > 1 then tomono w.samples else w.samples), w.rate)

/-- Byte length of a 16-bit PCM buffer (2 bytes per sample). -/
def pcmByteLength (pcm : List Int) : Nat :=
  2 * pcm.length

/-- The normalization decision inside `SpeechToTextTool._invoke`
(lines 322–333): try `_convert_wav_to_pcm` on the input directly; on any
failure call `_convert_audio_to_wav` (the pydub/ffmpeg transcoder, passed
here as the oracle `convertAudioToWav`) and parse its output, whose
failure propagates.  The second component records whether the transcoder
was invoked. -/
def invokeNormalize (convertAudioToWav : AudioBytes → Except String AudioBytes)
    (input : AudioBytes) : Except String (List Int × Nat) × Bool :=
  match convertWavToPcm input with
  | .ok r => (.ok r, false)
  | .error _ =>
    match convertAudioToWav input with
    | .error e => (.error e, true)
    | .ok wavData => (convertWavToPcm wavData, true)

/-! ## Audio acquisition (`_get_audio_data_from_file`) -/

/-- Value of a probed attribute: raw bytes or some other object. -/
inductive AttrValue where
  | bytes (bs : Bytes)
  | objectValue
deriving DecidableEq

/-- Result of calling `download()`: raw bytes, an object carrying a
`content` attribute, or anything else. -/
inductive DownloadResult where
  | bytes (bs : Bytes)
  | withContent (bs : Bytes)
  | objectValue
deriving DecidableEq

/-- A capability-rich (Dify `File`-like) object: each field is `none`
when the attribute is absent.  (An attribute that is present but `None`
is conflated with absence; no claim depends on that corner.) -/
structure ManagedFile where
  download : Option DownloadResult
  blob : Option AttrValue
  readData : Option Bytes
  content : Option Bytes
  data : Option Bytes
  remote_url : Option String
  url : Option String
  id : Option String
  related_id : Option String

/-- A metadata mapping (Case 5 of `_get_audio_data_from_file`): the four
keys the source consults; `none` models an absent key. -/
structure MetaDict where
  related_id : Option String
  id : Option String
  remote_url : Option String
  url : Option String

/-- `remote_url.lower().startswith(("http://", "https://"))`. -/
def isAbsHttpUrl (u : String) : Bool :=
  pyStartsWith (pyLower u) "http://" || pyStartsWith (pyLower u) "https://"

/-- Final failure message of the managed-object branch (lines 106–109). -/
def managedErrMsg : String :=
  "Could not read Dify File object: no blob/download/read/data/content available, "
    ++ "no absolute URL, and SDK file fetch by id not supported in this runtime."

/-- Final failure message of the metadata-dict branch (lines 188–191). -/
def dictErrMsg : String :=
  "Could not retrieve file bytes from provided metadata (no SDK method worked, "
    ++ "and no absolute URL available)."

/-- The managed-object branch (Case 1, lines 38–109): download, blob,
read, content, data, absolute URL (30 s GET whose failure only logs and
falls through), then SDK fetch by id (`sdkFetch` collapses accessor
availability and success into one oracle), else the terminal error. -/
def getAudioDataFromManaged (sdkFetch : String → Option Bytes)
    (httpGet : String → Nat → Option Bytes) (f : ManagedFile) : Except String Bytes :=
  match f.download with
  | some (.bytes bs) => .ok bs
  | some (.withContent bs) => .ok bs
  | _ =>
    match f.blob with
    | some (.bytes bs) => .ok bs
    | _ =>
      match f.readData with
      | some bs => .ok bs
      | none =>
        match f.content with
        | some bs => .ok bs
        | none =>
          match f.data with
          | some bs => .ok bs
          | none =>
            match
              match (match f.remote_url with | some u => some u | none => f.url) with
              | some u => if isAbsHttpUrl u then httpGet u 30 else none
              | none => none
            with
            | some bs => .ok bs
            | none =>
              match (match truthyStr f.id with | some i => some i | none => truthyStr f.related_id) with
              | some i =>
                match sdkFetch i with
                | some bs => .ok bs
                | none => .error managedErrMsg
              | none => .error managedErrMsg

/-- The metadata-dict branch (Case 5, lines 132–191): SDK fetch via
`related_id`/`id` when one is truthy (every accessor failure is caught),
then `remote_url`/`url` if it is an absolute HTTP(S) URL via a 30 s GET
whose failure falls through, else the terminal error. -/
def getAudioDataFromDict (sdkFetch : String → Option Bytes)
    (httpGet : String → Nat → Option Bytes) (d : MetaDict) : Except String Bytes :=
  match
    match truthyStr (pyOrStr d.related_id d.id) with
    | some i => sdkFetch i
    | none => none
  with
  | some bs => .ok bs
  | none =>
    match pyOrStr d.remote_url d.url with
    | some u =>
      if isAbsHttpUrl u then
        match httpGet u 30 with
        | some bs => .ok bs
        | none => .error dictErrMsg
      else .error dictErrMsg
    | none => .error dictErrMsg

/-- The polymorphic audio reference dispatched on by
`_get_audio_data_from_file`: a duck-typed object, raw bytes, a path
string, or a metadata mapping.  (A file-like object is an `obj` with only
`readData` set, matching the `hasattr` dispatch order.) -/
inductive AudioRef where
  | obj (f : ManagedFile)
  | raw (bs : Bytes)
  | path (p : String)
  | dict (d : MetaDict)

/-- `_get_audio_data_from_file`: Case 1 applies when the object has a
`download` or `blob` attribute; Case 2 reads a file-like object; Case 3
returns raw bytes unchanged; Case 4 opens a path (`fs` is the filesystem
oracle); Case 5 handles a metadata dict; anything else is rejected. -/
def getAudioDataFromFile (fs : String → Option Bytes)
    (sdkFetch dictSdkFetch : String → Option Bytes)
    (httpGet : String → Nat → Option Bytes) : AudioRef → Except String Bytes
  | .obj f =>
    if f.download.isSome || f.blob.isSome then getAudioDataFromManaged sdkFetch httpGet f
    else
      match f.readData with
      | some bs => .ok bs
      | none => .error "Unsupported audio file type"
  | .raw bs => .ok bs
  | .path p =>
    match fs p with
    | some bs => .ok bs
    | none => .error ("Failed to open file: " ++ p)
  | .dict d => getAudioDataFromDict dictSdkFetch httpGet d

/-! ## JSON values and response dispatch -/

/-- JSON values as `response.json()` returns them. -/
inductive Json where
  | str (s : String)
  | num (n : Int)
  | obj (fields : List (String × Json))
  | arr (elems : List Json)
  | null

/-- Association-list lookup, modelling `dict.get` (first matching key). -/
def lookupStr {α : Type} : List (String × α) → String → Option α
  | [], _ => none
  | (k, v) :: rest, key => if k = key then some v else lookupStr rest key

/-- Python truthiness of a JSON value (`""`, `0`, `[]`, `{}`, `None`
falsy). -/
def jsonTruthy : Json → Bool
  | .str s => s ≠ ""
  | .num n => n ≠ 0
  | .obj fs => !fs.isEmpty
  | .arr xs => !xs.isEmpty
  | .null => false

/-- Rendering of a JSON value into an error string (`f"{...}"`); the
string and number cases are exact, container rendering is abstracted
(no claim depends on it). -/
def jsonAsMessage : Json → String
  | .str s => s
  | .num n => toString n
  | .null => "None"
  | .obj _ => ""
  | .arr _ => ""

/-- `dict.get(key)` returning only truthy values (models the
`a.get(k1) or a.get(k2)` chains, where falsy results are discarded). -/
def jsonGetTruthy (fs : List (String × Json)) (k : String) : Option Json :=
  match lookupStr fs k with
  | some v => if jsonTruthy v then some v else none
  | none => none

/-- First truthy of two optional JSON values (Python `a or b`). -/
def orTruthy : Option Json → Option Json → Option Json
  | some v, _ => some v
  | none, b => b

/-- Python `s[:200]`. -/
def take200 (s : String) : String :=
  ⟨s.data.take 200⟩

/-! ## Speech-to-text response dispatch (`SpeechToTextTool._invoke`) -/

/-- The HTTP response of the recognition request: status code, the parsed
JSON body (`none` when `response.json()` raises), and `response.text`. -/
structure SttResponse where
  status : Nat
  json : Option Json
  text : String

/-- Outcome of one speech-to-text invocation: the yielded text messages,
or a raised error (surfaced by the tool as a failure, not as text). -/
inductive SttOutcome where
  | messages (texts : List String)
  | failure (msg : String)
deriving DecidableEq

/-- Non-200 message assembly (lines 354–363):
`"API error: {status}"` then `" - error.message"` from the JSON body
(`"Unknown error"` when absent), falling back to `response.text` whenever
the body is unparseable or the `.get` chain raises. -/
def sttApiErrorMsg (resp : SttResponse) : String :=
  "API error: " ++ toString resp.status ++ " - " ++
    match resp.json with
    | none => resp.text
    | some (.obj fs) =>
      (match lookupStr fs "error" with
       | none => "Unknown error"
       | some (.obj efs) =>
         (match lookupStr efs "message" with
          | some (.str m) => m
          | some v => jsonAsMessage v
          | none => "Unknown error")
       | some _ => resp.text)
    | some _ => resp.text

/-- Response handling of `SpeechToTextTool._invoke` (lines 354–373):
non-200 raises the assembled API error; on 200 the `"result"` field is
read with default `""`; a falsy result raises
`"No speech detected in the audio file"`; otherwise the recognized text
is yielded as the single text message. -/
def sttHandleResponse (resp : SttResponse) : SttOutcome :=
  if resp.status ≠ 200 then .failure (sttApiErrorMsg resp)
  else
    match resp.json with
    | none => .failure "Invalid JSON in API response"
    | some (.obj fs) =>
      match (lookupStr fs "result").getD (.str "") with
      | v => if jsonTruthy v then .messages [jsonAsMessage v]
             else .failure "No speech detected in the audio file"
    | some _ => .failure "API response is not a JSON object"

/-! ## Text-to-speech (`TextToSpeechTool`) -/

/-- `VOICE_DESCRIPTIONS` (the keys are the valid voices). -/
def VOICE_DESCRIPTIONS : List (String × String) :=
  [("marina", "Марина - женский голос (по умолчанию)"),
   ("alena", "Алёна - женский голос"),
   ("filipp", "Филипп - мужской голос"),
   ("jane", "Джейн - женский голос"),
   ("omazh", "Омаж - мужской голос"),
   ("ermil", "Ермил - мужской голос"),
   ("zahar", "Захар - мужской голос"),
   ("madi_ru", "Мади - мужской голос (рус.)")]

/-- `VOICE_ALLOWED_EMOTIONS` (sets listed in source order). -/
def VOICE_ALLOWED_EMOTIONS : List (String × List String) :=
  [("marina", ["neutral", "whisper", "friendly"]),
   ("alena", ["neutral", "good"]),
   ("filipp", ["neutral"]),
   ("jane", ["neutral", "good", "evil"]),
   ("omazh", ["neutral", "evil"]),
   ("ermil", ["neutral", "good"]),
   ("zahar", ["neutral", "good"]),
   ("madi_ru", ["neutral"])]

/-- `FORMAT_MIME`. -/
def FORMAT_MIME : List (String × String) :=
  [("mp3", "audio/mpeg"), ("oggopus", "audio/ogg")]

/-- The globally valid emotions (line 62). -/
def TTS_EMOTIONS : List String :=
  ["neutral", "good", "evil", "friendly", "whisper"]

/-- Caller-supplied synthesis parameters.  `speed` is the numeric value
in thousandths (Python float `1.0` is `1000`): every speed appearing in
the spec and claims is an exact decimal, so this scaling is exact, and
the float range check `0.1 <= speed <= 3.0` becomes `100 ≤ speed ≤ 3000`.
(Non-numeric speed input, which the source rejects with
"Speed must be a valid number", is outside this model.) -/
structure TtsParams where
  text : String
  voice : String
  emotion : String
  speed : Int
  format : String

/-- The validated parameter record returned by `_validate_parameters`
(`speed` already string-encoded by `str(speed)`). -/
structure TtsValidated where
  text : String
  voice : String
  emotion : String
  speedStr : String
  format : String
deriving DecidableEq

/-- Decimal digits of the fractional part (thousandths) without trailing
zeros, as Python `str(float)` prints exact decimals. -/
def fracStr (fr : Nat) : String :=
  if fr % 10 ≠ 0 then toString (fr / 100) ++ toString (fr / 10 % 10) ++ toString (fr % 10)
  else if fr / 10 % 10 ≠ 0 then toString (fr / 100) ++ toString (fr / 10 % 10)
  else toString (fr / 100)

/-- Models Python `str(float(speed))` for exact-decimal speeds given in
thousandths: `1000 -> "1.0"`, `100 -> "0.1"`, `2500 -> "2.5"`. -/
def pyFloatStr (milli : Int) : String :=
  toString (milli / 1000) ++ "." ++
    (if (milli % 1000).toNat = 0 then "0" else fracStr (milli % 1000).toNat)

/-- `TextToSpeechTool._validate_parameters`: collect range/shape errors
(text, voice, emotion, speed, format — with caller-facing `"opus"`
translated to `"oggopus"` first), raise them joined by `"; "`; then check
the emotion against the chosen voice's allowed set and raise the
`not supported by voice` error; otherwise return the validated record. -/
def validateParameters (p : TtsParams) : Except String TtsValidated :=
  let text := pyStrip p.text
  let fmt := if p.format = "opus" then "oggopus" else p.format
  let errs :=
    (if text = "" then ["Text content is required"]
     else if text.length > 5000 then ["Text is too long (maximum 5000 characters)"]
     else [])
    ++ (if (lookupStr VOICE_DESCRIPTIONS p.voice).isSome then []
        else ["Invalid voice: " ++ p.voice])
    ++ (if TTS_EMOTIONS.contains p.emotion then []
        else ["Invalid emotion: " ++ p.emotion])
    ++ (if 100 ≤ p.speed ∧ p.speed ≤ 3000 then []
        else ["Speed must be between 0.1 and 3.0"])
    ++ (if fmt = "mp3" ∨ fmt = "oggopus" then []
        else ["Invalid format: " ++ fmt])
  if errs ≠ [] then .error (joinWith "; " errs)
  else
    let allowed := (lookupStr VOICE_ALLOWED_EMOTIONS p.voice).getD ["neutral"]
    if allowed.contains p.emotion then
      .ok ⟨text, p.voice, p.emotion, pyFloatStr p.speed, fmt⟩
    else
      .error ("Emotion \x27" ++ p.emotion ++ "\x27 is not supported by voice \x27"
        ++ p.voice ++ "\x27. Allowed: " ++ joinWith ", " (sortStrings allowed))

/-- The outbound synthesis request as `_invoke` builds it: form field
name (`"ssml"` when the text starts with `<speak`, else `"text"`), the
validated parameters, fixed `lang`, optional `emotion` (omitted when
neutral), the API-key header, and the 30 s timeout. -/
structure TtsRequest where
  url : String
  field : String
  text : String
  voice : String
  speed : String
  format : String
  lang : String
  emotion : Option String
  apiKeyHeader : String
  timeout : Nat
deriving DecidableEq

/-- Request construction in `TextToSpeechTool._invoke` (lines 126–146). -/
def buildTtsRequest (key : String) (v : TtsValidated) : TtsRequest :=
  { url := "https://tts.api.cloud.yandex.net/speech/v1/tts:synthesize"
    field := if pyStartsWith (pyLstrip v.text) "<speak" then "ssml" else "text"
    text := v.text
    voice := v.voice
    speed := v.speedStr
    format := v.format
    lang := "ru-RU"
    emotion := if v.emotion ≠ "neutral" then some v.emotion else none
    apiKeyHeader := "Api-Key " ++ key
    timeout := 30 }

/-- An HTTP response as `requests` exposes it to the tool: status,
`response.content` bytes, parsed JSON body (`none` when `response.json()`
raises) and `response.text`. -/
structure HttpResponse where
  status : Nat
  content : Bytes
  json : Option Json
  text : String

/-- The messages a text-to-speech invocation can yield. -/
inductive TtsMessage where
  | jsonMeta (voice emotion speed format : String) (textLength : Nat)
  | blob (content : Bytes) (mime : String) (filename : String)
deriving DecidableEq

/-- The two success messages of `_invoke` (lines 212–234): the structured
metadata record (with `"oggopus"` renamed back to `"opus"`), then the
audio blob with MIME type and `speech.<ext>` filename. -/
def ttsSuccessMessages (v : TtsValidated) (content : Bytes) : List TtsMessage :=
  [.jsonMeta v.voice v.emotion v.speedStr
     (if v.format = "oggopus" then "opus" else v.format) v.text.length,
   .blob content ((lookupStr FORMAT_MIME v.format).getD "application/octet-stream")
     ("speech." ++ (if v.format = "oggopus" then "ogg" else v.format))]

/-- The `details`-field fallback of the TTS error parser (lines 169–172):
used only when no message was found, and only for list/dict values. -/
def detailsFallback (fs : List (String × Json)) : Option String :=
  match lookupStr fs "details" with
  | some (.arr xs) => some (take200 (jsonAsMessage (.arr xs)))
  | some (.obj ofs) => some (take200 (jsonAsMessage (.obj ofs)))
  | _ => none

/-- Non-200 message assembly of `TextToSpeechTool._invoke`
(lines 150–185): the defensive multi-shape JSON parse — nested
`error.code/message` when `"error"` is a dict, else flat
`error_code`/`code` and `message`/`error_message`, then the `details`
fallback — appending `[code]` and `- message` when truthy; any parse
failure (unparseable body or `.get` on a non-dict) falls back to the
truncated raw body; finally the parameter context is appended. -/
def ttsApiErrorMsg (v : TtsValidated) (resp : HttpResponse) : String :=
  "API error: " ++ toString resp.status ++
    (match resp.json with
     | none => " - " ++ take200 resp.text
     | some (.obj fs) =>
       (match
          match lookupStr fs "error" with
          | some (.obj nfs) =>
            (orTruthy (jsonGetTruthy nfs "code") (jsonGetTruthy nfs "error_code"),
             orTruthy (jsonGetTruthy nfs "message") (jsonGetTruthy nfs "error_message"))
          | _ =>
            (orTruthy (jsonGetTruthy fs "error_code") (jsonGetTruthy fs "code"),
             orTruthy (jsonGetTruthy fs "message") (jsonGetTruthy fs "error_message"))
        with
        | (code, msg) =>
          (match code with
           | some c => " [" ++ jsonAsMessage c ++ "]"
           | none => "")
          ++
          (match msg with
           | some m => " - " ++ jsonAsMessage m
           | none =>
             match detailsFallback fs with
             | some d => " - " ++ d
             | none => ""))
     | some _ => " - " ++ take200 resp.text)
    ++ " | voice=" ++ v.voice ++ ", emotion=" ++ v.emotion
    ++ ", speed=" ++ v.speedStr ++ ", format=" ++ v.format

/-- `TextToSpeechTool._invoke`: check the API key (`None`/`""` rejected),
validate the parameters (wrapping the message in `"Parameter error: "`),
build and send the request (`post` is the transport oracle), then map the
response: non-200 raises the assembled API error, an empty 200 body
raises `"Empty response from TTS service"`, otherwise the metadata and
blob messages are yielded.  The second component lists the requests that
were actually sent. -/
def ttsInvoke (apiKey : Option String) (post : TtsRequest → HttpResponse)
    (p : TtsParams) : Except String (List TtsMessage) × List TtsRequest :=
  match apiKey with
  | none => (.error "API key is required", [])
  | some key =>
    if key = "" then (.error "API key is required", [])
    else
      match validateParameters p with
      | .error e => (.error ("Parameter error: " ++ e), [])
      | .ok v =>
        let resp := post (buildTtsRequest key v)
        if resp.status ≠ 200 then (.error (ttsApiErrorMsg v resp), [buildTtsRequest key v])
        else if resp.content = [] then
          (.error "Empty response from TTS service", [buildTtsRequest key v])
        else (.ok (ttsSuccessMessages v resp.content), [buildTtsRequest key v])

/-! ## Helper lemmas -/

/-- The fuel-based search `isqrtAux` finds the integer square root as long
as the fuel reaches from the start candidate to `n`. -/
theorem isqrtAux_le_and_lt (n : Nat) :
    ∀ fuel k, k * k ≤ n → n ≤ k + fuel →
      isqrtAux n fuel k * isqrtAux n fuel k ≤ n
      ∧ n < (isqrtAux n fuel k + 1) * (isqrtAux n fuel k + 1) := by
  intro fuel
  induction fuel with
  | zero =>
    intro k hk hf
    simp only [isqrtAux]
    refine ⟨hk, ?_⟩
    nlinarith
  | succ m ih =>
    intro k hk hf
    simp only [isqrtAux]
    by_cases h : (k + 1) * (k + 1) ≤ n
    · rw [if_pos h]
      exact ih (k + 1) h (by omega)
    · rw [if_neg h]
      exact ⟨hk, by omega⟩

/-- `isqrt n` is the floor of the real square root of `n`, matching the C
`(unsigned long)sqrt(...)` of `audioop.rms`. -/
theorem isqrt_spec (n : Nat) :
    isqrt n * isqrt n ≤ n ∧ n < (isqrt n + 1) * (isqrt n + 1) :=
  isqrtAux_le_and_lt n n 0 (Nat.zero_le n) (by omega)

/-- Gain application preserves the number of samples. -/
theorem applyGainNorm_length (xs : List Int) :
    (applyGainNorm xs).length = xs.length := by
  unfold applyGainNorm
  split_ifs <;> simp

/-- Stereo-to-mono downmix halves the sample count. -/
theorem tomono_length : ∀ (n : Nat) (xs : List Int),
    xs.length = 2 * n → (tomono xs).length = n := by
  intro n
  induction n with
  | zero =>
    intro xs h
    have hx : xs = [] := List.eq_nil_of_length_eq_zero (by omega)
    subst hx
    rfl
  | succ m ih =>
    intro xs h
    match xs with
    | [] =>
      simp only [List.length_nil] at h
      omega
    | [a] =>
      simp only [List.length_cons, List.length_nil] at h
      omega
    | a :: b :: rest =>
      have hr : rest.length = 2 * m := by
        simp only [List.length_cons] at h
        omega
      simp [tomono, ih rest hr]

/-! ## Claim theorems -/

/-- C1 (code_bug evidence): on HTTP 200 with JSON body with an empty
`"result"` field, `SpeechToTextTool._invoke` raises
`Exception("No speech detected in the audio file")` — a failure outcome —
rather than yielding that text as a normal message (which the spec and
the repository's own test `test_no_speech_detected` require). -/
theorem stt_empty_result_is_error :
    sttHandleResponse ⟨200, some (Json.obj [("result", Json.str "")]), ""⟩
      = SttOutcome.failure "No speech detected in the audio file" := rfl

/-- C2 counterexample: the mono signal `[1, 0]` has computed integer RMS
0 (which is below 300), yet `_convert_wav_to_pcm` applies no gain — its
output is the unchanged `[1, 0]`, not the gain-4 result `[4, 0]` the
claim requires for every RMS below 300 (`if rms and rms < 300` is falsy
at `rms == 0`). -/
theorem gain_claim_cex :
    rmsInt [(1 : Int), 0] = 0
  ∧ rmsInt [(1 : Int), 0] < 300
  ∧ convertWavToPcm (.wav ⟨16000, 2, 1, [1, 0]⟩) = .ok ([1, 0], 16000)
  ∧ List.map (mulSample 4) [(1 : Int), 0] ≠ [(1 : Int), 0] :=
  ⟨by decide, by decide, rfl, by decide⟩

/-- C2 (amended): after downmix, the gain applied to the mono signal is
exactly ×4.0 when the computed RMS is nonzero and below 300, ×2.0 when
the RMS is at least 300 and below 1000, and ×1.0 (no gain) when the RMS
is 1000 or more — and also when the computed RMS is 0. -/
theorem rms_gain_law (samples : List Int) :
    (0 < rmsInt samples → rmsInt samples < 300 →
      applyGainNorm samples = samples.map (mulSample 4))
  ∧ (300 ≤ rmsInt samples → rmsInt samples < 1000 →
      applyGainNorm samples = samples.map (mulSample 2))
  ∧ (1000 ≤ rmsInt samples → applyGainNorm samples = samples)
  ∧ (rmsInt samples = 0 → applyGainNorm samples = samples) := by
  unfold applyGainNorm gainFor
  refine ⟨?_, ?_, ?_, ?_⟩ <;> intros <;> split_ifs <;> first | rfl | omega

/-- Witness for C2: the signal `[100]` has RMS 100, so gain ×4.0 applies. -/
theorem rms_gain_law_witness : applyGainNorm [(100 : Int)] = [(400 : Int)] := by
  have h := (rms_gain_law [(100 : Int)]).1 (by decide) (by decide)
  rw [h]
  decide

/-- C3: the normalization decision is a two-attempt pipeline — when the
direct WAV parse succeeds its result is used and the transcoding adapter
is never called (the outcome is independent of the adapter); when it
fails the adapter is invoked, an adapter failure propagates, and a
failure of the second (post-transcode) parse is propagated as the
terminal error, not retried. -/
theorem normalize_two_attempt (convertAudioToWav : AudioBytes → Except String AudioBytes)
    (input : AudioBytes) :
    (∀ r, convertWavToPcm input = .ok r →
      invokeNormalize convertAudioToWav input = (.ok r, false))
  ∧ (∀ e, convertWavToPcm input = .error e →
      ((invokeNormalize convertAudioToWav input).2 = true
       ∧ (∀ e2, convertAudioToWav input = .error e2 →
           invokeNormalize convertAudioToWav input = (.error e2, true))
       ∧ (∀ w e2, convertAudioToWav input = .ok w → convertWavToPcm w = .error e2 →
           invokeNormalize convertAudioToWav input = (.error e2, true)))) := by
  constructor
  · intro r h
    unfold invokeNormalize
    rw [h]
  · intro e h
    refine ⟨?_, ?_, ?_⟩
    · unfold invokeNormalize
      rw [h]
      cases hA : convertAudioToWav input <;> rfl
    · intro e2 h2
      unfold invokeNormalize
      rw [h, h2]
    · intro w e2 h2 h3
      unfold invokeNormalize
      rw [h, h2]
      show (convertWavToPcm w, true) = (Except.error e2, true)
      rw [h3]

/-- Witness for C3: a conformant mono 16 kHz 16-bit WAV is parsed on the
first attempt; the adapter (here one that always fails) is never
consulted. -/
theorem normalize_two_attempt_witness :
    invokeNormalize (fun _ => .error "pydub unavailable") (.wav ⟨16000, 2, 1, [0, 0]⟩)
      = (.ok ([0, 0], 16000), false) :=
  (normalize_two_attempt (fun _ => .error "pydub unavailable")
    (.wav ⟨16000, 2, 1, [0, 0]⟩)).1 ([0, 0], 16000) rfl

/-- C4: a WAV whose sample width is not 16 bits is rejected with the
error naming the unsupported width; the result is the same for every
sample payload (the check precedes any frame read), so no partial PCM is
ever returned. -/
theorem parseWav_rejects_width (w : WavFile) (h : w.width ≠ 2) :
    convertWavToPcm (.wav w) = .error (widthErrMsg w.width)
  ∧ (∀ s, convertWavToPcm (.wav { w with samples := s }) = .error (widthErrMsg w.width))
  ∧ (∃ a b, widthErrMsg w.width = a ++ toString (w.width * 8) ++ b) := by
  refine ⟨?_, ?_, ?_⟩
  · simp [convertWavToPcm, h]
  · intro s
    simp [convertWavToPcm, h]
  · exact ⟨"Failed to process WAV file: Unsupported WAV sample width: ",
      " bits. Only 16-bit PCM supported", rfl⟩

/-- Witness for C4: an 8-bit WAV is rejected with a message naming
"8 bits". -/
theorem parseWav_rejects_width_witness :
    convertWavToPcm (.wav ⟨16000, 1, 1, [5]⟩) = .error (widthErrMsg 1) :=
  (parseWav_rejects_width ⟨16000, 1, 1, [5]⟩ (by decide)).1

/-- C5: applying either selectable gain (×2.0 or ×4.0) to any sequence of
valid 16-bit samples never produces a sample outside [-32768, 32767];
at the range boundary the values saturate (32767·2 stays 32767,
-32768·4 stays -32768) rather than wrapping. -/
theorem gain_never_overflows (g : Int) (hg : g = 2 ∨ g = 4) (samples : List Int)
    (hs : ∀ s ∈ samples, -32768 ≤ s ∧ s ≤ 32767) :
    (∀ y ∈ samples.map (mulSample g), -32768 ≤ y ∧ y ≤ 32767)
  ∧ mulSample 2 32767 = 32767 ∧ mulSample 4 (-32768) = -32768 := by
  refine ⟨?_, by decide, by decide⟩
  intro y hy
  obtain ⟨s, hsmem, rfl⟩ := List.mem_map.mp hy
  have hb := hs s hsmem
  unfold mulSample
  rcases hg with h | h <;> subst h <;> split_ifs <;> omega

/-- Witness for C5 at the upper boundary sample. -/
theorem gain_never_overflows_witness :
    (∀ y ∈ List.map (mulSample 2) [(32767 : Int)], -32768 ≤ y ∧ y ≤ 32767)
  ∧ mulSample 2 32767 = 32767 ∧ mulSample 4 (-32768) = -32768 :=
  gain_never_overflows 2 (.inl rfl) [(32767 : Int)] (by decide)

/-- C6: for every parseable 16-bit mono or stereo WAV, the returned PCM
has byte length 2 × frameCount (after downmix for stereo) and is tagged
with the sample rate read from the container itself (no resampling). -/
theorem parseWav_length_and_rate (w : WavFile) (n : Nat)
    (hw : w.width = 2) (hc : w.channels = 1 ∨ w.channels = 2)
    (hlen : w.samples.length = w.channels * n) :
    ∃ pcm, convertWavToPcm (.wav w) = .ok (pcm, w.rate) ∧ pcmByteLength pcm = 2 * n := by
  rcases hc with h1 | h2
  · rw [h1] at hlen
    refine ⟨applyGainNorm w.samples, ?_, ?_⟩
    · simp [convertWavToPcm, hw, h1]
    · unfold pcmByteLength
      rw [applyGainNorm_length]
      omega
  · rw [h2] at hlen
    refine ⟨applyGainNorm (tomono w.samples), ?_, ?_⟩
    · simp [convertWavToPcm, hw, h2]
    · unfold pcmByteLength
      rw [applyGainNorm_length, tomono_length n w.samples hlen]

/-- Witness for C6: a 4-sample stereo WAV (2 frames) yields 4 PCM bytes
at the container's 8000 Hz rate. -/
theorem parseWav_length_and_rate_witness :
    ∃ pcm, convertWavToPcm (.wav ⟨8000, 2, 2, [1, 2, 3, 4]⟩) = .ok (pcm, 8000)
      ∧ pcmByteLength pcm = 4 :=
  parseWav_length_and_rate ⟨8000, 2, 2, [1, 2, 3, 4]⟩ 2 rfl (.inr rfl) (by decide)

/-- C7: a metadata mapping whose only usable key is an absolute HTTP(S)
`remote_url` triggers a GET with the bounded 30-second timeout, and the
response body becomes the acquired bytes; a fetch failure falls through
to the terminal acquisition error of the dict branch (it is a strategy
failure, not an early abort). -/
theorem dict_remote_url_fetch (fs sdkFetch dictSdkFetch : String → Option Bytes)
    (httpGet : String → Nat → Option Bytes) (u : String)
    (hu : isAbsHttpUrl u = true) :
    (∀ body, httpGet u 30 = some body →
      getAudioDataFromFile fs sdkFetch dictSdkFetch httpGet
        (.dict ⟨none, none, some u, none⟩) = .ok body)
  ∧ (httpGet u 30 = none →
      getAudioDataFromFile fs sdkFetch dictSdkFetch httpGet
        (.dict ⟨none, none, some u, none⟩) = .error dictErrMsg) := by
  have hne : u ≠ "" := by
    intro h
    subst h
    exact absurd hu (by decide)
  constructor
  · intro body hb
    simp [getAudioDataFromFile, getAudioDataFromDict, truthyStr, pyOrStr, hne, hu, hb]
  · intro hb
    simp [getAudioDataFromFile, getAudioDataFromDict, truthyStr, pyOrStr, hne, hu, hb]

/-- Witness for C7: a concrete dict with only a `remote_url` is fetched
via a GET carrying timeout 30. -/
theorem dict_remote_url_fetch_witness :
    getAudioDataFromFile (fun _ => none) (fun _ => none) (fun _ => none)
      (fun s t => if s = "http://files.example/a.ogg" ∧ t = 30 then some [7] else none)
      (.dict ⟨none, none, some "http://files.example/a.ogg", none⟩) = .ok [7] :=
  (dict_remote_url_fetch (fun _ => none) (fun _ => none) (fun _ => none)
    (fun s t => if s = "http://files.example/a.ogg" ∧ t = 30 then some [7] else none)
    "http://files.example/a.ogg" (by decide)).1 [7] (by decide)

/-- C8: synthesis with text "hello", voice "filipp", emotion "good",
speed 1.0, format "mp3" fails validation with a message containing
"not supported by voice" ("good" is not in filipp's allowed set
{"neutral"}), and no request is sent, whatever the transport would
answer. -/
theorem tts_filipp_good_rejected (key : String) (hk : key ≠ "")
    (post : TtsRequest → HttpResponse) :
    ttsInvoke (some key) post ⟨"hello", "filipp", "good", 1000, "mp3"⟩
      = (.error ("Parameter error: Emotion \x27good\x27 is not supported by voice \x27filipp\x27. Allowed: neutral"), [])
  ∧ (∃ a b, ("Parameter error: Emotion \x27good\x27 is not supported by voice \x27filipp\x27. Allowed: neutral" : String)
      = a ++ "not supported by voice" ++ b) := by
  constructor
  · have hv : validateParameters ⟨"hello", "filipp", "good", 1000, "mp3"⟩
        = .error "Emotion \x27good\x27 is not supported by voice \x27filipp\x27. Allowed: neutral" := rfl
    simp only [ttsInvoke]
    rw [if_neg hk, hv]
    rfl
  · exact ⟨"Parameter error: Emotion \x27good\x27 is ", " \x27filipp\x27. Allowed: neutral", by decide⟩

/-- Witness for C8 with a concrete key and transport. -/
theorem tts_filipp_good_rejected_witness :
    ttsInvoke (some "k") (fun _ => ⟨200, [1], none, ""⟩) ⟨"hello", "filipp", "good", 1000, "mp3"⟩
      = (.error ("Parameter error: Emotion \x27good\x27 is not supported by voice \x27filipp\x27. Allowed: neutral"), []) :=
  (tts_filipp_good_rejected "k" (by decide) (fun _ => ⟨200, [1], none, ""⟩)).1

/-- C9: acquiring an audio reference that is already raw bytes returns
exactly those bytes, unmodified, for every environment. -/
theorem acquire_raw_bytes_identity (fs sdkFetch dictSdkFetch : String → Option Bytes)
    (httpGet : String → Nat → Option Bytes) (bs : Bytes) :
    getAudioDataFromFile fs sdkFetch dictSdkFetch httpGet (.raw bs) = .ok bs := rfl

/-- C10: when the synthesis endpoint answers HTTP 200 with an empty body,
the tool raises the terminal error "Empty response from TTS service" and
yields neither the metadata record nor the audio blob; conversely every
successful invocation comes from a validated request whose 200 response
body is non-empty. -/
theorem tts_empty_body_terminal (key : String) (hk : key ≠ "")
    (post : TtsRequest → HttpResponse) (p : TtsParams) (v : TtsValidated)
    (hv : validateParameters p = .ok v)
    (h200 : (post (buildTtsRequest key v)).status = 200)
    (hempty : (post (buildTtsRequest key v)).content = []) :
    ttsInvoke (some key) post p
      = (.error "Empty response from TTS service", [buildTtsRequest key v])
  ∧ (∀ post2 p2 msgs reqs, ttsInvoke (some key) post2 p2 = (.ok msgs, reqs) →
      ∃ v2, validateParameters p2 = .ok v2
        ∧ (post2 (buildTtsRequest key v2)).status = 200
        ∧ (post2 (buildTtsRequest key v2)).content ≠ []
        ∧ msgs = ttsSuccessMessages v2 (post2 (buildTtsRequest key v2)).content) := by
  constructor
  · simp only [ttsInvoke]
    rw [if_neg hk, hv]
    simp [h200, hempty]
  · intro post2 p2 msgs reqs h
    simp only [ttsInvoke] at h
    rw [if_neg hk] at h
    cases hv2 : validateParameters p2 with
    | error e =>
      rw [hv2] at h
      simp at h
    | ok v2 =>
      rw [hv2] at h
      by_cases hs : (post2 (buildTtsRequest key v2)).status = 200
      · by_cases hc : (post2 (buildTtsRequest key v2)).content = []
        · simp [hs, hc] at h
        · simp [hs, hc] at h
          exact ⟨v2, rfl, hs, hc, h.1.symm⟩
      · simp [hs] at h

/-- Witness for C10: a concrete valid request answered by 200 with an
empty body produces only the terminal error. -/
theorem tts_empty_body_terminal_witness :
    ttsInvoke (some "k") (fun _ => ⟨200, [], none, ""⟩) ⟨"hi", "marina", "neutral", 1000, "mp3"⟩
      = (.error "Empty response from TTS service",
         [buildTtsRequest "k" ⟨"hi", "marina", "neutral", "1.0", "mp3"⟩]) :=
  (tts_empty_body_terminal "k" (by decide) (fun _ => ⟨200, [], none, ""⟩)
    ⟨"hi", "marina", "neutral", 1000, "mp3"⟩ ⟨"hi", "marina", "neutral", "1.0", "mp3"⟩
    rfl rfl rfl).1
